import Mathlib

/-!
Shallow embedding of `src/Safe.h`: the kernel-mode ownership and concurrency
wrappers (SpinLock, ScopedLock, UniquePtr, SharedPtr with its control block
`detail::SharedPtrState`, and the `Atomic` pointer slot), together with models
of the Interlocked hardware intrinsics they call. Machine pointers are
modelled as `Nat` values and the 64-bit signed counters as `Int` (the source
counters are `i64`; no scenario here approaches the 2^63 wrap).
-/

/-- Model of `_InterlockedExchangeAdd64(addr, delta)`: atomically fetches the
stored value, stores `stored + delta`, and returns the value read.
Result: (value returned to the caller, new stored value). -/
def interlockedExchangeAdd64 (stored delta : Int) : Int × Int :=
  (stored, stored + delta)

/-- Model of `_InterlockedDecrement64(addr)`: atomically decrements and
returns the decremented value. Result: (returned value, new stored value). -/
def interlockedDecrement64 (stored : Int) : Int × Int :=
  (stored - 1, stored - 1)

/-- Model of `_InterlockedIncrement64(addr)`: atomically increments and
returns the incremented value. Result: (returned value, new stored value). -/
def interlockedIncrement64 (stored : Int) : Int × Int :=
  (stored + 1, stored + 1)

/-- Model of `_InterlockedCompareExchangePointer(dest, exch, comp)` over
pointer values modelled as `Nat`: when the stored value equals `comp` it is
replaced by `exch`; the original stored value is returned either way.
Result: (new stored value, returned original value). -/
def interlockedCompareExchangePointer (stored exch comp : Nat) : Nat × Nat :=
  if stored = comp then (exch, stored) else (stored, stored)

/-- `SpinLock` (src/Safe.h:83-100): its signed counter `ref_count`. -/
structure SpinLock where
  ref_count : Int
deriving DecidableEq

/-- `SpinLock::SpinLock` (src/Safe.h:92): counter starts at 0. -/
def SpinLock.mk0 : SpinLock := ⟨0⟩

/-- `SpinLock::ref` (src/Safe.h:95-97): `_InterlockedExchangeAdd64(&ref_count, 0)`.
Result: (the value returned to the caller, the lock object afterwards). -/
def SpinLock.refCall (s : SpinLock) : Int × SpinLock :=
  ((interlockedExchangeAdd64 s.ref_count 0).1,
   ⟨(interlockedExchangeAdd64 s.ref_count 0).2⟩)

/-- `SpinLock::lock` (src/Safe.h:98): the entire body is one unconditional
`_InterlockedDecrement64(&ref_count)`; there is no comparison, no retry loop
and no waiting, so the call completes and returns in every state. -/
def SpinLock.lockCall (s : SpinLock) : SpinLock :=
  ⟨(interlockedDecrement64 s.ref_count).1⟩

/-- `SpinLock::unlock` (src/Safe.h:99): one `_InterlockedIncrement64`. -/
def SpinLock.unlockCall (s : SpinLock) : SpinLock :=
  ⟨(interlockedIncrement64 s.ref_count).1⟩

/-- Two execution contexts contending for one `SpinLock`. -/
inductive Ctx
  | A
  | B
deriving DecidableEq

/-- Joint state of one `SpinLock` and two contexts. `aInCS` (resp. `bInCS`)
records that context A's (resp. B's) `lock()` call has returned and the
context is executing its critical section, not yet having called `unlock()`. -/
structure SpinSys where
  lk : SpinLock
  aInCS : Bool
  bInCS : Bool
deriving DecidableEq

/-- Scheduler events: a context's `lock()` call or its `unlock()` call. -/
inductive SpinEv
  | lockEv (c : Ctx)
  | unlockEv (c : Ctx)

/-- One interleaving step. Because `SpinLock::lock` is a single unconditional
atomic decrement (src/Safe.h:98), a `lock()` call is enabled and completes in
one step in every state, after which its caller proceeds into the critical
section; `unlock()` increments and the caller leaves the critical section. -/
def SpinSys.step (s : SpinSys) : SpinEv → SpinSys
  | .lockEv .A => ⟨s.lk.lockCall, true, s.bInCS⟩
  | .lockEv .B => ⟨s.lk.lockCall, s.aInCS, true⟩
  | .unlockEv .A => ⟨s.lk.unlockCall, false, s.bInCS⟩
  | .unlockEv .B => ⟨s.lk.unlockCall, s.aInCS, false⟩

/-- Run a finite schedule of lock/unlock events. -/
def SpinSys.run (s : SpinSys) (evs : List SpinEv) : SpinSys :=
  evs.foldl SpinSys.step s

/-- Faults a shallow embedding makes explicit: dereferencing a null pointer
(including a virtual call through a null object pointer). -/
inductive Fault
  | nullDeref
deriving DecidableEq

/-- Lock-interface events observed by a `Lock` implementation. -/
inductive LockEv
  | lockCall
  | unlockCall
deriving DecidableEq

/-- `ScopedLock` (src/Safe.h:102-120): stores the `Lock*` it was given, which
may be null (`none`). -/
structure ScopedLock where
  lk : Option Unit
deriving DecidableEq

/-- `ScopedLock::ScopedLock` (src/Safe.h:110-113): stores the pointer and then
runs `this->lock->lock()` unconditionally; through a null pointer that virtual
call dereferences null. On success: the guard and the emitted lock event. -/
def ScopedLock.ctor (lk : Option Unit) : Except Fault (ScopedLock × List LockEv) :=
  match lk with
  | none => .error .nullDeref
  | some _ => .ok (⟨lk⟩, [LockEv.lockCall])

/-- `ScopedLock::~ScopedLock` (src/Safe.h:115-119): calls `unlock()` if and
only if the stored pointer is non-null. -/
def ScopedLock.dtor (g : ScopedLock) : List LockEv :=
  match g.lk with
  | none => []
  | some _ => [LockEv.unlockCall]

/-- A guarded scope: the guard's construction, then the body's own lock
events, then — on every exit path, per C++ automatic-storage semantics — the
guard's destructor. Result: the full event trace, or the constructor's fault. -/
def ScopedLock.scope (lk : Option Unit) (body : List LockEv) : Except Fault (List LockEv) :=
  match ScopedLock.ctor lk with
  | .error e => .error e
  | .ok g => .ok (g.2 ++ body ++ ScopedLock.dtor g.1)

/-- Bookkeeping of the array branch of `UniquePtr<T[K]>`: the byte size
requested from the allocator and the number of elements the new-expression
constructs. -/
structure UniqueArrayAlloc where
  bytesRequested : Nat
  elemsConstructed : Nat
deriving DecidableEq

/-- `UniquePtr::UniquePtr(const bool&&)`, array branch (src/Safe.h:136-145):
`Size = sizeof(ElementType) * extent_v<T>` bytes are requested (the allocator
itself is modelled from the spec: `allocate(sizeInBytes, residencyClass)` is
an external collaborator, not in this repository's sources), and the
new-expression `new (Size, paged) ElementType` — whose allocated type is the
scalar `ElementType`, not an array type — constructs exactly one element. -/
def UniquePtr.arrayCtor (sizeofElem K : Nat) : UniqueArrayAlloc :=
  ⟨sizeofElem * K, 1⟩

/-- `UniquePtr::~UniquePtr`, array branch (src/Safe.h:151-158):
`delete[] this->data` can invoke element destructors only on elements that
were actually constructed; the model reports how many destructor runs the
destruction can perform. -/
def UniquePtr.arrayDtorRuns (a : UniqueArrayAlloc) : Nat :=
  a.elemsConstructed

/-- `detail::SharedPtrState<T>` (src/Safe.h:179-232), the control block, with
observation fields: `payloadDtorRuns` counts runs of the owned payload's
destructor and `blockFreed` records that the block's own storage was released
by `delete state`. `data` is the payload pointer value. -/
structure SharedPtrState where
  ref_count : Int
  data : Nat
  payloadDtorRuns : Nat
  blockFreed : Bool
deriving DecidableEq

/-- `SharedPtrState` constructors (src/Safe.h:188-205): `ref_count{ 1 }` and a
freshly allocated payload at pointer value `d`. -/
def SharedPtrState.mkState (d : Nat) : SharedPtrState :=
  ⟨1, d, 0, false⟩

/-- `SharedPtrState::ref` (src/Safe.h:225-227): one atomic increment. -/
def SharedPtrState.refCall (s : SharedPtrState) : SharedPtrState :=
  { s with ref_count := (interlockedIncrement64 s.ref_count).1 }

/-- `SharedPtrState::deref` (src/Safe.h:229-231): one atomic decrement;
reports whether the decrement's own result reached zero.
Result: (the reported Bool, the state afterwards). -/
def SharedPtrState.derefCall (s : SharedPtrState) : Bool × SharedPtrState :=
  (decide ((interlockedDecrement64 s.ref_count).1 = 0),
   { s with ref_count := (interlockedDecrement64 s.ref_count).1 })

/-- `delete state`: runs `SharedPtrState::~SharedPtrState` (src/Safe.h:207-218)
— which decrements `ref_count` once more and returns early, skipping the
payload delete, whenever that decrement's result is non-zero — and then
releases the block's own storage. -/
def SharedPtrState.deleteState (s : SharedPtrState) : SharedPtrState :=
  let c := (interlockedDecrement64 s.ref_count).1
  if c = 0 then
    { s with ref_count := c, payloadDtorRuns := s.payloadDtorRuns + 1, blockFreed := true }
  else
    { s with ref_count := c, blockFreed := true }

/-- `SharedPtr<T>` (src/Safe.h:279-346): its `state` pointer, either null
(`none`) or a reference to the one modelled control block. -/
structure SharedPtr where
  state : Option Unit
deriving DecidableEq

/-- Allocating constructors (src/Safe.h:295-301): a fresh control block with
count 1, referenced by the new handle. -/
def SharedPtr.ctor (d : Nat) : SharedPtr × SharedPtrState :=
  (⟨some ()⟩, SharedPtrState.mkState d)

/-- `SharedPtr::get_data` (src/Safe.h:290-292): `return this->state->ptr();`
with no null check, so a null `state` pointer is dereferenced. `ptr()` of the
block (src/Safe.h:220-222) returns the stored payload pointer. -/
def SharedPtr.get_data (p : SharedPtr) (s : SharedPtrState) : Except Fault Nat :=
  match p.state with
  | none => .error .nullDeref
  | some _ => .ok s.data

/-- `SharedPtr::~SharedPtr` (src/Safe.h:303-311): a null `state` returns at
once; otherwise `deref()`, and on a `true` result `delete state`. -/
def SharedPtr.dtor (p : SharedPtr) (s : SharedPtrState) : SharedPtrState :=
  match p.state with
  | none => s
  | some _ =>
    let r := SharedPtrState.derefCall s
    if r.1 then SharedPtrState.deleteState r.2 else r.2

/-- Copy constructor (src/Safe.h:317-323): adopts the source's block pointer
and calls `ref()` on it when it is non-null. -/
def SharedPtr.copyCtor (other : SharedPtr) (s : SharedPtrState) : SharedPtr × SharedPtrState :=
  match other.state with
  | none => (⟨none⟩, s)
  | some _ => (⟨some ()⟩, SharedPtrState.refCall s)

/-- `detail::swap` (src/Safe.h:68-73): after `swap(a, b)` the first variable
holds the old `b` and the second the old `a`. Result: (new a, new b). -/
def detailSwap (a b : α) : α × α :=
  (b, a)

/-- `SharedPtr::operator=` (src/Safe.h:325-332): copy-and-swap — builds
`SharedPtr temp(other)`, swaps `this->state` with `temp.state`, and destroys
the temporary when the operator returns. Result: (assigned-to handle, state). -/
def SharedPtr.assign (dst other : SharedPtr) (s : SharedPtrState) : SharedPtr × SharedPtrState :=
  let t := SharedPtr.copyCtor other s
  let sw := detailSwap dst.state t.1.state
  (⟨sw.1⟩, SharedPtr.dtor ⟨sw.2⟩ t.2)

/-- `Atomic<T>` (src/Safe.h:239-274): the stored pointer value `data` and
`selfAddr`, the address `&this->data` of the slot's own storage — the value
the source passes, cast to `void*`, as an operand of both intrinsic calls. -/
structure Atomic where
  selfAddr : Nat
  data : Nat
deriving DecidableEq

/-- `Atomic::exchange` (src/Safe.h:256-260):
`_InterlockedCompareExchangePointer(&data, (void*)&data, p)` — destination the
slot, exchange value the slot's own address, comperand `p`; the returned
original value is discarded. -/
def Atomic.exchange (s : Atomic) (p : Nat) : Atomic :=
  ⟨s.selfAddr, (interlockedCompareExchangePointer s.data s.selfAddr p).1⟩

/-- `Atomic::load` (src/Safe.h:263-269): a compare-exchange whose exchange
value and comperand are both the slot's own address; the intrinsic's returned
original value is the result. Result: (returned value, the slot afterwards). -/
def Atomic.load (s : Atomic) : Nat × Atomic :=
  ((interlockedCompareExchangePointer s.data s.selfAddr s.selfAddr).2,
   ⟨s.selfAddr, (interlockedCompareExchangePointer s.data s.selfAddr s.selfAddr).1⟩)

/-- Claim C1, evaluated on the code at the failing input (two handles sharing
one block, both destroyed): the last handle's destructor takes the count from
1 to 0 via `deref()` and then `delete state` decrements again to -1, so the
early return in `~SharedPtrState` skips the payload delete. The payload's
destructor runs 0 times, not exactly once; the block's storage is freed. -/
theorem sharedPtr_payload_never_destroyed :
    (SharedPtr.dtor ⟨some ()⟩
      (SharedPtr.dtor ⟨some ()⟩
        (SharedPtr.copyCtor (SharedPtr.ctor 7).1 (SharedPtr.ctor 7).2).2)).payloadDtorRuns = 0
  ∧ (SharedPtr.dtor ⟨some ()⟩
      (SharedPtr.dtor ⟨some ()⟩
        (SharedPtr.copyCtor (SharedPtr.ctor 7).1 (SharedPtr.ctor 7).2).2)).blockFreed = true := by
  decide

/-- Claim C2, evaluated on the code at the failing input: from a fresh lock
(counter 0), context A calls `lock()` and then, with A still holding, context B
calls `lock()`. Both calls return — `lock()` is a single unconditional atomic
decrement with no acquire loop — so both contexts are inside the critical
section simultaneously, with the counter at -2 and no `unlock()` ever issued. -/
theorem spinLock_no_mutual_exclusion :
    (SpinSys.run ⟨SpinLock.mk0, false, false⟩ [SpinEv.lockEv Ctx.A, SpinEv.lockEv Ctx.B]).aInCS = true
  ∧ (SpinSys.run ⟨SpinLock.mk0, false, false⟩ [SpinEv.lockEv Ctx.A, SpinEv.lockEv Ctx.B]).bInCS = true
  ∧ (SpinSys.run ⟨SpinLock.mk0, false, false⟩ [SpinEv.lockEv Ctx.A, SpinEv.lockEv Ctx.B]).lk.ref_count = -2 := by
  decide

/-- Claim C3, evaluated on the code at the failing input: a slot at address 100
holding the initial value 0; `exchange(1)` compares the stored 0 against the
comperand 1, fails, and stores nothing, so the subsequent `load()` returns 0,
not the exchanged value 1. -/
theorem atomic_exchange_does_not_store :
    (Atomic.exchange ⟨100, 0⟩ 1).data = 0
  ∧ (Atomic.load (Atomic.exchange ⟨100, 0⟩ 1)).1 = 0
  ∧ (Atomic.load (Atomic.exchange ⟨100, 0⟩ 1)).1 ≠ 1 := by
  decide

/-- Claim C4, evaluated on the code at the failing input: a slot at address 100
holding initial value 5; `exchange(5)` finds the stored value equal to the
comperand and stores the exchange operand — the slot's own address — so the
subsequent `load()` returns 100, a bit-pattern that is neither the initial
value nor any value ever passed to `exchange`. -/
theorem atomic_load_returns_slot_address :
    (Atomic.exchange ⟨100, 5⟩ 5).data = 100
  ∧ (Atomic.load (Atomic.exchange ⟨100, 5⟩ 5)).1 = 100
  ∧ (Atomic.load (Atomic.exchange ⟨100, 5⟩ 5)).1 ≠ 5 := by
  decide

/-- Claim C5, evaluated on the code at the failing input: a block at count 1;
the single `deref()` reaches zero and reports `true`, and the block's ensuing
destruction (`delete state`, running `~SharedPtrState`) decrements once more,
leaving the count at -1 — the count does become negative. -/
theorem sharedPtr_count_goes_negative :
    (SharedPtrState.derefCall (SharedPtrState.mkState 7)).1 = true
  ∧ (SharedPtrState.deleteState
      (SharedPtrState.derefCall (SharedPtrState.mkState 7)).2).ref_count = -1 := by
  decide

/-- Claim C6 counterexample: on a handle whose control-block pointer is null,
`get_data` — the common path of `ptr()`, `operator->` and `operator*` —
is not a no-op: it dereferences the null `state` pointer, a fault. -/
theorem sharedPtr_null_get_data_faults :
    SharedPtr.get_data ⟨none⟩ (SharedPtrState.mkState 7) = Except.error Fault.nullDeref :=
  rfl

/-- Claim C6 as amended: destruction, copy-construction and copy-assignment of
a `SharedPtr` whose control-block pointer is null are no-ops (the null check
guards them), while `ptr()`, `operator->` and `operator*` dereference the null
block pointer through `get_data` and fault. -/
theorem sharedPtr_null_ops (s : SharedPtrState) :
    SharedPtr.dtor ⟨none⟩ s = s
  ∧ SharedPtr.copyCtor ⟨none⟩ s = (⟨none⟩, s)
  ∧ SharedPtr.assign ⟨none⟩ ⟨none⟩ s = (⟨none⟩, s)
  ∧ SharedPtr.get_data ⟨none⟩ s = Except.error Fault.nullDeref :=
  ⟨rfl, rfl, rfl, rfl⟩

/-- Claim C7 counterexample: a `ScopedLock` constructed over a null lock
pointer does crash — the constructor stores the pointer and unconditionally
performs the virtual call `this->lock->lock()`, a null dereference; the
acquisition is not skipped. -/
theorem scopedLock_null_ctor_faults :
    ScopedLock.ctor none = Except.error Fault.nullDeref :=
  rfl

/-- Claim C7 as amended: only the destructor tolerates a null lock pointer (it
skips the release); the constructor calls `lock()` unconditionally, so a null
lock faults at construction. Over a non-null lock the guarded scope emits
exactly one `lock()` before the body and exactly one `unlock()` after it, on
every exit path: one balanced pair beyond whatever the body itself does. -/
theorem scopedLock_balanced (body : List LockEv) :
    ScopedLock.scope (some ()) body
      = Except.ok (LockEv.lockCall :: (body ++ [LockEv.unlockCall]))
  ∧ (LockEv.lockCall :: (body ++ [LockEv.unlockCall])).count LockEv.lockCall
      = body.count LockEv.lockCall + 1
  ∧ (LockEv.lockCall :: (body ++ [LockEv.unlockCall])).count LockEv.unlockCall
      = body.count LockEv.unlockCall + 1
  ∧ ScopedLock.dtor ⟨none⟩ = [] := by
  refine ⟨rfl, ?_, ?_, rfl⟩ <;>
    simp [List.count_cons, List.count_append, List.count_singleton]

/-- Claim C8: copy-assigning a live `SharedPtr` handle (block count `c ≥ 1`)
to itself leaves the handle on the same control block and restores the count:
the temporary's `ref()` raises it to `c + 1` and the temporary's destruction
lowers it back to `c`, never reaching zero, so nothing is destroyed. -/
theorem sharedPtr_self_assign (c : Int) (d r : Nat) (b : Bool) (hc : 1 ≤ c) :
    SharedPtr.assign ⟨some ()⟩ ⟨some ()⟩ ⟨c, d, r, b⟩ = (⟨some ()⟩, ⟨c, d, r, b⟩) := by
  have hne : ¬(c + 1 - 1 = 0) := by omega
  simp [SharedPtr.assign, SharedPtr.copyCtor, SharedPtr.dtor, SharedPtrState.refCall,
    SharedPtrState.derefCall, detailSwap, interlockedIncrement64, interlockedDecrement64, hne]
  omega

/-- Claim C8 witness: the self-assignment theorem at the concrete input of a
block at count 1 with payload pointer 7. -/
theorem sharedPtr_self_assign_witness :
    (1 : Int) ≤ 1
  ∧ SharedPtr.assign ⟨some ()⟩ ⟨some ()⟩ ⟨1, 7, 0, false⟩ = (⟨some ()⟩, ⟨1, 7, 0, false⟩) :=
  ⟨by decide, sharedPtr_self_assign 1 7 0 false (by decide)⟩

/-- Claim C9, evaluated on the code at the failing input `UniquePtr<T[2]>`
with `sizeof(T) = 4`: the constructor requests `4 * 2` bytes but its
new-expression constructs exactly one element, so destruction can run at most
one element destructor — not one per each of the K = 2 elements. -/
theorem uniquePtr_array_one_element :
    (UniquePtr.arrayCtor 4 2).bytesRequested = 4 * 2
  ∧ (UniquePtr.arrayCtor 4 2).elemsConstructed = 1
  ∧ UniquePtr.arrayDtorRuns (UniquePtr.arrayCtor 4 2) ≠ 2 := by
  decide

/-- Claim C10: `SpinLock::ref()` — `_InterlockedExchangeAdd64(&ref_count, 0)`
— returns the counter's current value and leaves the counter, and with it the
whole lock object, exactly as it was. -/
theorem spinLock_ref_pure (s : SpinLock) :
    SpinLock.refCall s = (s.ref_count, s) := by
  cases s with
  | mk c => simp [SpinLock.refCall, interlockedExchangeAdd64]
